import Mathlib

/-!
Verification of the n8n MCP server (tool dispatch, update/create workflow
handlers and the n8n API client) against its natural-language specification.

The TypeScript sources are shallowly embedded:

* JavaScript/JSON values become the inductive `JValue`; an *absent* object
  property (JS `undefined`) is `Option.none` at access sites.  JS objects are
  association lists of string keys; property lookup returns the first match
  and property assignment overwrites in place.
* The n8n REST upstream is modelled by `ApiState` (the stored workflows):
  `GET /workflows` answers `{ data: [...] }`, `GET /workflows/:id` answers the
  stored workflow with that id, and `PUT /workflows/:id` answers the body it
  was sent (the updated workflow), which is how the n8n API behaves.
* Each API-client method and the handler record the HTTP requests they issue
  as an explicit `List Request`, so that "issues zero upstream requests" is a
  provable statement.
* Thrown `N8nApiError`s become `Except.error` carrying the message string.
-/

set_option autoImplicit false

/-- A JavaScript/JSON value.  Object fields are an association list in
insertion order; duplicate keys cannot arise from real JS objects but the
representation admits them, so lemmas about object merging assume
key-uniqueness where it matters. -/
inductive JValue where
  | null
  | bool (b : Bool)
  | num (n : Int)
  | str (s : String)
  | arr (elems : List JValue)
  | obj (fields : List (String × JValue))

/-- First-match lookup in an object's field list (JS property access). -/
def lookupF : List (String × JValue) → String → Option JValue
  | [], _ => none
  | (k', v) :: rest, k => if k' = k then some v else lookupF rest k

/-- In-place property assignment: overwrite the first binding of `k`, or
append the binding if `k` is absent (JS `o[k] = v` / a later key in an
object literal). -/
def setField : List (String × JValue) → String → JValue → List (String × JValue)
  | [], k, v => [(k, v)]
  | (k', v') :: rest, k, v =>
      if k' = k then (k, v) :: rest else (k', v') :: setField rest k v

/-- Remove a property.  Used to model assigning `undefined` to a key: the
objects built here are serialized to JSON for the HTTP body, and JSON
serialization drops `undefined`-valued properties. -/
def removeField : List (String × JValue) → String → List (String × JValue)
  | [], _ => []
  | (k', v') :: rest, k =>
      if k' = k then rest else (k', v') :: removeField rest k

/-- Assign when the value is defined, drop the key when it is `undefined`
(see `removeField` for why dropping is faithful). -/
def setFieldOpt (fs : List (String × JValue)) (k : String) : Option JValue → List (String × JValue)
  | some v => setField fs k v
  | none => removeField fs k

/-- `if (x !== undefined) o[k] = x` — assign only when defined. -/
def setFieldIf (fs : List (String × JValue)) (k : String) : Option JValue → List (String × JValue)
  | some v => setField fs k v
  | none => fs

/-- JS object spread `{...v}`: the own fields of an object, nothing for a
non-object (spreading `undefined`/`null` yields no fields). -/
def spreadO : Option JValue → List (String × JValue)
  | some (JValue.obj fs) => fs
  | _ => []

/-- `{...a, ...b}`: fields of `b` assigned over `a` in order. -/
def overwriteFields (a b : List (String × JValue)) : List (String × JValue) :=
  b.foldl (fun acc kv => setField acc kv.1 kv.2) a

/-- JS property access `v.k`: field lookup on objects, `undefined` otherwise.
(The sources only access properties of values that are objects.) -/
def getField (v : JValue) (k : String) : Option JValue :=
  match v with
  | JValue.obj fs => lookupF fs k
  | _ => none

/-- JS truthiness of a value: `false`, `0`, `""` and `null` are falsy;
objects and arrays are always truthy. -/
def jsTruthy : JValue → Bool
  | JValue.null => false
  | JValue.bool b => b
  | JValue.num n => n != 0
  | JValue.str s => s ≠ ""
  | JValue.arr _ => true
  | JValue.obj _ => true

/-- Truthiness of a possibly-absent value (`undefined` is falsy). -/
def jsTruthyOpt : Option JValue → Bool
  | some v => jsTruthy v
  | none => false

/-- `Array.isArray(x)` on a possibly-absent value. -/
def isArrayOpt : Option JValue → Bool
  | some (JValue.arr _) => true
  | _ => false

/-- `typeof x === 'object'` on a possibly-absent value: true for objects,
arrays and `null` (all have JS typeof "object"), false for primitives and
for `undefined`. -/
def typeofIsObject : Option JValue → Bool
  | some (JValue.obj _) => true
  | some (JValue.arr _) => true
  | some JValue.null => true
  | _ => false

/-- JS strict equality `===` between two values.  Primitives compare
structurally; two arrays or objects compare as references.  In the embedded
code one side always comes from caller-supplied arguments and the other from
upstream data, which are never the same reference, so reference comparison
of composites yields `false`. -/
def jsStrictEq : JValue → JValue → Bool
  | JValue.null, JValue.null => true
  | JValue.bool a, JValue.bool b => a == b
  | JValue.num a, JValue.num b => a == b
  | JValue.str a, JValue.str b => a == b
  | _, _ => false

/-- `===` where either side may be `undefined`. -/
def jsStrictEqOpt : Option JValue → Option JValue → Bool
  | some a, some b => jsStrictEq a b
  | none, none => true
  | _, _ => false

/-- JS `ToString` as used by template literals: `${v}`.  Arrays render as
their elements joined with `","` (with `null` elements rendering empty),
objects as "[object Object]". -/
def jsToString : JValue → String
  | JValue.null => "null"
  | JValue.bool true => "true"
  | JValue.bool false => "false"
  | JValue.num n => toString n
  | JValue.str s => s
  | JValue.arr xs => joinElems xs
  | JValue.obj _ => "[object Object]"
where
  joinElems : List JValue → String
  | [] => ""
  | [JValue.null] => ""
  | [x] => jsToString x
  | JValue.null :: xs => "," ++ joinElems xs
  | x :: xs => jsToString x ++ "," ++ joinElems xs

/-- `${x}` where `x` may be `undefined` (renders as "undefined"). -/
def optToString : Option JValue → String
  | some v => jsToString v
  | none => "undefined"

/-- JS `a || b` where `a` may be absent: `b` when `a` is falsy or
`undefined`, otherwise `a`. -/
def jsOrOpt (a : Option JValue) (b : JValue) : JValue :=
  match a with
  | some v => if jsTruthy v then v else b
  | none => b

/-- Left-biased choice on options. -/
def optOr (a b : Option JValue) : Option JValue :=
  match a with
  | some v => some v
  | none => b

/-- Build an object literal whose values may be `undefined`
(dropped on JSON serialization). -/
def mkObjOpt (kvs : List (String × Option JValue)) : JValue :=
  JValue.obj (kvs.foldl (fun acc kv => setFieldOpt acc kv.1 kv.2) [])

/-! ## Result envelopes (MCP `ToolCallResult`) -/

/-- One content block of a result envelope. -/
inductive ContentBlock where
  | text (s : String)
  | json (v : JValue)

/-- The Result Envelope returned by every tool call: content blocks plus an
error flag. -/
structure ToolCallResult where
  content : List ContentBlock
  isError : Bool

/-- Modelled from the spec: `BaseWorkflowToolHandler.formatSuccess`
(`base-handler.js` is not among the provided sources).  The spec:
"on success, produce a success envelope (human-readable summary + a
structured JSON payload)". -/
def formatSuccess (data : JValue) (message : String) : ToolCallResult :=
  { content := [ContentBlock.text message, ContentBlock.json data], isError := false }

/-- Modelled from the spec: `BaseWorkflowToolHandler.formatError`
(`base-handler.js` is not among the provided sources).  The spec:
"on any thrown error, produce an error envelope whose text is the error's
message". -/
def formatError (message : String) : ToolCallResult :=
  { content := [ContentBlock.text message], isError := true }

/-- Modelled from the spec: `BaseWorkflowToolHandler.handleExecution`
(`base-handler.js` is not among the provided sources).  The spec: "Wrap the
operation-specific logic in a single try/catch; on success, produce a success
envelope ...; on any thrown error, produce an error envelope whose text is
the error's message."  The wrapped logic here yields either a thrown message
or a `(payload, summary)` pair. -/
def handleExecution : Except String (JValue × String) → ToolCallResult
  | Except.error msg => formatError msg
  | Except.ok (data, message) => formatSuccess data message

/-- The summary text of an envelope: its first text block. -/
def summaryOf (r : ToolCallResult) : Option String :=
  match r.content with
  | ContentBlock.text s :: _ => some s
  | _ => none

/-- The structured payload of a success envelope. -/
def payloadOf (r : ToolCallResult) : Option JValue :=
  match r.content with
  | [_, ContentBlock.json v] => some v
  | _ => none

/-! ## The n8n API client (`N8nApiClient` in the sources)

The upstream n8n REST API is an external collaborator; it is modelled by the
stored workflow list `ApiState`, with `GET /workflows` answering
`{ data: <stored list> }`, `GET /workflows/:id` answering the stored
workflow with that id, and `PUT /workflows/:id` answering the body it was
sent (the updated workflow). -/

/-- An upstream HTTP request, as issued by the API client. -/
inductive Request where
  | getWorkflowsReq
  | getWorkflowReq (id : String)
  | putWorkflowReq (id : String) (body : JValue)
  | postWorkflowsReq (body : JValue)
  | getExecutionsReq

/-- The upstream state: the stored workflows (each a JSON object). -/
structure ApiState where
  workflows : List JValue

/-- Body of the upstream `GET /workflows` response: the list wrapped in a
`data` envelope. -/
def upstreamWorkflowsBody (st : ApiState) : JValue :=
  JValue.obj [("data", JValue.arr st.workflows)]

/-- `response.data.data || []` — the decode step shared by the
list-returning client methods: take the body's `data` field, falling back to
an empty array when it is absent or falsy.  (A truthy non-array `data` is
returned as-is; there is no array check.) -/
def decodeListResponse (body : JValue) : JValue :=
  jsOrOpt (getField body "data") (JValue.arr [])

/-- `N8nApiClient.getWorkflows` decode: `response.data.data || []`. -/
def decodeWorkflowsResponse (body : JValue) : JValue :=
  decodeListResponse body

/-- `N8nApiClient.getExecutions` decode: `response.data.data || []`. -/
def decodeExecutionsResponse (body : JValue) : JValue :=
  decodeListResponse body

/-- View a decoded value as a list of elements (the handlers iterate over
the decoded workflows with `Array.prototype.find`). -/
def jarrElems : JValue → List JValue
  | JValue.arr xs => xs
  | _ => []

/-- `N8nApiClient.getWorkflows`: one `GET /workflows`, decoded with
`response.data.data || []`. -/
def apiGetWorkflows (st : ApiState) : List JValue × List Request :=
  (jarrElems (decodeWorkflowsResponse (upstreamWorkflowsBody st)), [Request.getWorkflowsReq])

/-- The stored workflow answering `GET /workflows/:id`: the first stored
workflow whose `id` renders to the requested path segment. -/
def findWorkflowById (st : ApiState) (id : String) : Option JValue :=
  st.workflows.find? (fun w => optToString (getField w "id") == id)

/-- The baseline settings `N8nApiClient.createWorkflow` starts from. -/
def baselineSettingsFields : List (String × JValue) :=
  [("saveExecutionProgress", JValue.bool true),
   ("saveManualExecutions", JValue.bool true),
   ("saveDataErrorExecution", JValue.str "all"),
   ("saveDataSuccessExecution", JValue.str "all"),
   ("executionTimeout", JValue.num 3600),
   ("timezone", JValue.str "UTC")]

/-- The body `N8nApiClient.createWorkflow` sends: the object literal
`{ name, nodes: nodes || [], connections: connections || {},
settings: { <baseline>, ...settings }, active: active || false,
tags: tags || [] }`. -/
def createWorkflowBody (workflow : JValue) : JValue :=
  JValue.obj (
    setField (
      setField (
        setField (
          setField (
            setField (
              setFieldOpt [] "name" (getField workflow "name"))
              "nodes" (jsOrOpt (getField workflow "nodes") (JValue.arr [])))
            "connections" (jsOrOpt (getField workflow "connections") (JValue.obj [])))
          "settings" (JValue.obj (overwriteFields baselineSettingsFields
                                    (spreadO (getField workflow "settings")))))
        "active" (jsOrOpt (getField workflow "active") (JValue.bool false)))
      "tags" (jsOrOpt (getField workflow "tags") (JValue.arr [])))

/-- `N8nApiClient.createWorkflow`: builds the body and issues one
`POST /workflows`; the upstream answers the created workflow. -/
def apiCreateWorkflow (workflow : JValue) : Except String JValue × List Request :=
  let body := createWorkflowBody workflow
  (Except.ok body, [Request.postWorkflowsReq body])

/-- `x !== undefined ? x : cur` — the per-field choice in
`N8nApiClient.updateWorkflow`: the caller's value when explicitly supplied,
the fetched one otherwise. -/
def jsPick (workflow cur : JValue) (f : String) : Option JValue :=
  optOr (getField workflow f) (getField cur f)

/-- The merged object `N8nApiClient.updateWorkflow` sends: the object
literal `{ ...currentWorkflow, name: ..., nodes: ..., connections: ...,
settings: { ...currentWorkflow.settings, ...workflow.settings },
active: ..., tags: ... }` with each of name/nodes/connections/active/tags
taken from the caller when defined and from the fetched copy otherwise. -/
def mergeWorkflowUpdate (cur workflow : JValue) : JValue :=
  JValue.obj (
    setFieldOpt (
      setFieldOpt (
        setField (
          setFieldOpt (
            setFieldOpt (
              setFieldOpt (spreadO (some cur))
                "name" (jsPick workflow cur "name"))
              "nodes" (jsPick workflow cur "nodes"))
            "connections" (jsPick workflow cur "connections"))
          "settings" (JValue.obj (overwriteFields (spreadO (getField cur "settings"))
                                    (spreadO (getField workflow "settings")))))
        "active" (jsPick workflow cur "active"))
      "tags" (jsPick workflow cur "tags"))

/-- `N8nApiClient.updateWorkflow`: first fetches the current workflow
(`GET /workflows/:id`), merges the caller's fields over it, then issues one
`PUT /workflows/:id` with the full merged object; the upstream answers the
updated workflow.  A failing fetch is normalized by the error handler
(`handleAxiosError`, wrapped with "Failed to update workflow"). -/
def apiUpdateWorkflow (id : String) (workflow : JValue) (st : ApiState) :
    Except String JValue × List Request :=
  match findWorkflowById st id with
  | none => (Except.error ("Failed to update workflow " ++ id), [Request.getWorkflowReq id])
  | some cur =>
      let updated := mergeWorkflowUpdate cur workflow
      (Except.ok updated, [Request.getWorkflowReq id, Request.putWorkflowReq id updated])

/-! ## The `update_workflow` handler (`UpdateWorkflowHandler.execute`) -/

/-- The changes summary the handler builds: name and active are compared
old-vs-new; nodes, connections and tags are reported whenever supplied. -/
def updateChangesList (workflow : JValue)
    (newName nodes connections active tags : Option JValue) : List String :=
  (match newName with
   | some nv =>
       if jsStrictEqOpt (some nv) (getField workflow "name") then []
       else ["name: \"" ++ optToString (getField workflow "name") ++ "\" → \"" ++
             jsToString nv ++ "\""]
   | none => []) ++
  (match active with
   | some av =>
       if jsStrictEqOpt (some av) (getField workflow "active") then []
       else ["active: " ++ optToString (getField workflow "active") ++ " → " ++
             jsToString av]
   | none => []) ++
  (match nodes with
   | some _ => ["nodes updated"]
   | none => []) ++
  (match connections with
   | some _ => ["connections updated"]
   | none => []) ++
  (match tags with
   | some _ => ["tags updated"]
   | none => [])

/-- The operation-specific logic of `UpdateWorkflowHandler.execute` (the
function passed to `handleExecution`): validate the arguments, list all
workflows, select the first with the supplied name, merge the supplied
fields over it, call the client's update, and build the summary and payload.
Returns the thrown message or the `(payload, summary)` pair, together with
the upstream requests issued. -/
def updateWorkflowCore (args : JValue) (st : ApiState) :
    Except String (JValue × String) × List Request :=
  let name := getField args "name"
  let newName := getField args "newName"
  let nodes := getField args "nodes"
  let connections := getField args "connections"
  let active := getField args "active"
  let tags := getField args "tags"
  if !jsTruthyOpt name then
    (Except.error "Missing required parameter: name", [])
  else if jsTruthyOpt nodes && !isArrayOpt nodes then
    (Except.error "Parameter \"nodes\" must be an array", [])
  else if jsTruthyOpt connections && !typeofIsObject connections then
    (Except.error "Parameter \"connections\" must be an object", [])
  else
    let listed := apiGetWorkflows st
    match listed.1.find? (fun w => jsStrictEqOpt (getField w "name") name) with
    | none =>
        (Except.error ("Workflow with name \"" ++ optToString name ++ "\" not found"),
         listed.2)
    | some workflow =>
        let workflowData :=
          setFieldIf (
            setFieldIf (
              setFieldIf (
                setFieldIf (
                  setFieldIf (spreadO (some workflow)) "name" newName)
                  "nodes" nodes)
                "connections" connections)
              "active" active)
            "tags" tags
        let idStr := optToString (getField workflow "id")
        match apiUpdateWorkflow idStr (JValue.obj workflowData) st with
        | (Except.error msg, reqs2) => (Except.error msg, listed.2 ++ reqs2)
        | (Except.ok updatedWorkflow, reqs2) =>
            let changes := updateChangesList workflow newName nodes connections active tags
            let changesSummary :=
              if changes.isEmpty then "No changes were made"
              else "Changes: " ++ String.intercalate ", " changes
            let payload := mkObjOpt
              [("id", getField updatedWorkflow "id"),
               ("name", getField updatedWorkflow "name"),
               ("active", getField updatedWorkflow "active")]
            (Except.ok (payload, "Workflow updated successfully. " ++ changesSummary),
             listed.2 ++ reqs2)

/-- `UpdateWorkflowHandler.execute`: the core logic wrapped by
`handleExecution`, yielding the result envelope and the requests issued. -/
def updateWorkflowExecute (args : JValue) (st : ApiState) : ToolCallResult × List Request :=
  let core := updateWorkflowCore args st
  (handleExecution core.1, core.2)

/-! ## Tool registry and dispatcher (`setupToolCallRequestHandler`) -/

/-- A tool handler as seen by the dispatcher: `execute(args)` against the
upstream state, possibly throwing (the dispatcher defends against throws
even though handlers are designed not to). -/
def HandlerFun : Type :=
  JValue → ApiState → Except String ToolCallResult

/-- The tool names registered in `configureServer` (the keys of the
`toolHandlers` map). -/
def registeredToolNames : List String :=
  ["list_workflows", "get_workflow", "create_workflow", "update_workflow",
   "delete_workflow", "activate_workflow", "deactivate_workflow",
   "list_executions", "get_execution", "delete_execution", "run_webhook"]

/-- First-match lookup in the handler registry (`toolHandlers.get`). -/
def lookupHandler : List (String × HandlerFun) → String → Option HandlerFun
  | [], _ => none
  | (k, h) :: rest, name => if k = name then some h else lookupHandler rest name

/-- The body of the `try` block in `setupToolCallRequestHandler`: look the
tool up (throwing "Unknown tool" when absent), run its handler, and reshape
the result. -/
def callToolCore (handlers : List (String × HandlerFun)) (toolName : String)
    (args : JValue) (st : ApiState) : Except String ToolCallResult :=
  match lookupHandler handlers toolName with
  | none => Except.error ("Unknown tool: " ++ toolName)
  | some h =>
      match h args st with
      | Except.error msg => Except.error msg
      | Except.ok result => Except.ok { content := result.content, isError := result.isError }

/-- `setupToolCallRequestHandler`'s request handler: default the arguments
(`request.params.arguments || {}`), run the `try` block, and convert any
thrown error into an error envelope whose text is
`Error: <message>`.  Total: every call returns an envelope. -/
def callTool (handlers : List (String × HandlerFun)) (toolName : String)
    (argsGiven : Option JValue) (st : ApiState) : ToolCallResult :=
  let args := jsOrOpt argsGiven (JValue.obj [])
  match callToolCore handlers toolName args st with
  | Except.ok r => r
  | Except.error msg =>
      { content := [ContentBlock.text ("Error: " ++ msg)], isError := true }

/-! ## Lemmas about field lookup and assignment -/

theorem lookupF_setField_self (fs : List (String × JValue)) (k : String) (v : JValue) :
    lookupF (setField fs k v) k = some v := by
  induction fs with
  | nil => simp [setField, lookupF]
  | cons kv rest ih =>
      by_cases h : kv.1 = k
      · simp [setField, h, lookupF]
      · simp [setField, h, lookupF, ih]

theorem lookupF_setField_ne (fs : List (String × JValue)) (k k' : String) (v : JValue)
    (h : k' ≠ k) : lookupF (setField fs k v) k' = lookupF fs k' := by
  have h' : ¬(k = k') := fun hh => h hh.symm
  induction fs with
  | nil => simp [setField, lookupF, h']
  | cons kv rest ih =>
      obtain ⟨k₀, v₀⟩ := kv
      by_cases hk : k₀ = k
      · subst hk
        simp [setField, lookupF, h']
      · by_cases hk' : k₀ = k'
        · simp [setField, hk, lookupF, hk', h]
        · simp [setField, hk, lookupF, hk', ih]

theorem removeField_of_lookupF_none (fs : List (String × JValue)) (k : String)
    (h : lookupF fs k = none) : removeField fs k = fs := by
  induction fs with
  | nil => simp [removeField]
  | cons kv rest ih =>
      obtain ⟨k₀, v₀⟩ := kv
      by_cases hk : k₀ = k
      · simp [lookupF, hk] at h
      · simp [lookupF, hk] at h
        simp [removeField, hk, ih h]

theorem lookupF_removeField_ne (fs : List (String × JValue)) (k k' : String)
    (h : k' ≠ k) : lookupF (removeField fs k) k' = lookupF fs k' := by
  induction fs with
  | nil => simp [removeField]
  | cons kv rest ih =>
      obtain ⟨k₀, v₀⟩ := kv
      by_cases hk : k₀ = k
      · subst hk
        have h' : ¬(k₀ = k') := fun hh => h hh.symm
        simp [removeField, lookupF, h']
      · by_cases hk' : k₀ = k'
        · simp [removeField, hk, lookupF, hk', h]
        · simp [removeField, hk, lookupF, hk', ih]

theorem lookupF_setFieldOpt_ne (fs : List (String × JValue)) (k k' : String)
    (o : Option JValue) (h : k' ≠ k) :
    lookupF (setFieldOpt fs k o) k' = lookupF fs k' := by
  cases o with
  | some v => simpa [setFieldOpt] using lookupF_setField_ne fs k k' v h
  | none => simpa [setFieldOpt] using lookupF_removeField_ne fs k k' h

theorem lookupF_setFieldOpt_self (fs : List (String × JValue)) (k : String)
    (o : Option JValue) (h : o = none → lookupF fs k = none) :
    lookupF (setFieldOpt fs k o) k = o := by
  cases o with
  | some v => simpa [setFieldOpt] using lookupF_setField_self fs k v
  | none => simp [setFieldOpt, removeField_of_lookupF_none fs k (h rfl), h rfl]

theorem lookupF_spread_some (cur : JValue) (k : String) :
    lookupF (spreadO (some cur)) k = getField cur k := by
  cases cur <;> rfl

theorem lookupF_eq_none_of_not_mem (fs : List (String × JValue)) (k : String)
    (h : k ∉ fs.map Prod.fst) : lookupF fs k = none := by
  induction fs with
  | nil => rfl
  | cons kv rest ih =>
      simp only [List.map, List.mem_cons] at h
      push_neg at h
      have h1 : ¬(kv.1 = k) := fun hh => h.1 hh.symm
      simp [lookupF, h1, ih h.2]

theorem lookupF_overwriteFields (a b : List (String × JValue)) (k : String)
    (hb : (b.map Prod.fst).Nodup) :
    lookupF (overwriteFields a b) k = optOr (lookupF b k) (lookupF a k) := by
  induction b generalizing a with
  | nil => simp [overwriteFields, lookupF, optOr]
  | cons kv rest ih =>
      obtain ⟨k₀, v₀⟩ := kv
      simp only [List.map, List.nodup_cons] at hb
      have step : overwriteFields a ((k₀, v₀) :: rest) = overwriteFields (setField a k₀ v₀) rest := by
        simp [overwriteFields, List.foldl]
      rw [step, ih (setField a k₀ v₀) hb.2]
      by_cases hk : k₀ = k
      · subst hk
        have : lookupF rest k₀ = none :=
          lookupF_eq_none_of_not_mem rest k₀ hb.1
        simp [lookupF, this, optOr, lookupF_setField_self]
      · have hne : k ≠ k₀ := fun hh => hk hh.symm
        simp [lookupF, hk, lookupF_setField_ne a k₀ k v₀ hne]

theorem apiGetWorkflows_eq (st : ApiState) :
    apiGetWorkflows st = (st.workflows, [Request.getWorkflowsReq]) := rfl

theorem getField_payload_active (o₁ o₂ o₃ : Option JValue) :
    getField (mkObjOpt [("id", o₁), ("name", o₂), ("active", o₃)]) "active" = o₃ := by
  cases o₁ <;> cases o₂ <;> cases o₃ <;> rfl

theorem strAppend_assoc (a b c : String) : a ++ b ++ c = a ++ (b ++ c) := by
  cases a with
  | mk la =>
    cases b with
    | mk lb =>
      cases c with
      | mk lc =>
        show String.mk (la ++ lb ++ lc) = String.mk (la ++ (lb ++ lc))
        rw [List.append_assoc]

theorem lookupHandler_eq_none_of_not_mem (hs : List (String × HandlerFun)) (name : String)
    (h : name ∉ hs.map Prod.fst) : lookupHandler hs name = none := by
  induction hs with
  | nil => rfl
  | cons kh rest ih =>
      simp only [List.map, List.mem_cons] at h
      push_neg at h
      have h1 : ¬(kh.1 = name) := fun hh => h.1 hh.symm
      simp [lookupHandler, h1, ih h.2]

/-! ## Claims about the dispatcher -/

/-- Claim C1: for every tool name not present in the handler registry and
every argument mapping, `call_tool` returns a Result Envelope with
`isError = true` whose text contains the unknown tool name, and `call_tool`
never throws: it is a total function into envelopes, and any error thrown by
a handler or by the lookup is converted to an error envelope.  The last
conjunct ties "not present in the handler registry" to the concrete
registry keys of `configureServer`. -/
theorem claim_C1_unknown_tool (handlers : List (String × HandlerFun)) (toolName : String)
    (argsGiven : Option JValue) (st : ApiState) :
    (lookupHandler handlers toolName = none →
       callTool handlers toolName argsGiven st =
         { content := [ContentBlock.text ("Error: Unknown tool: " ++ toolName)],
           isError := true } ∧
       ∃ pre post, "Error: Unknown tool: " ++ toolName = pre ++ toolName ++ post) ∧
    (∀ (h : HandlerFun) (msg : String), lookupHandler handlers toolName = some h →
       h (jsOrOpt argsGiven (JValue.obj [])) st = Except.error msg →
       callTool handlers toolName argsGiven st =
         { content := [ContentBlock.text ("Error: " ++ msg)], isError := true }) ∧
    (∀ (hs : List (String × HandlerFun)), hs.map Prod.fst = registeredToolNames →
       toolName ∉ registeredToolNames → lookupHandler hs toolName = none) := by
  refine ⟨fun hnone => ⟨?_, "Error: Unknown tool: ", "", by simp⟩, fun h msg hsome herr => ?_, ?_⟩
  · have hstr : ("Error: Unknown tool: " : String) ++ toolName =
        "Error: " ++ ("Unknown tool: " ++ toolName) := by
      rw [← strAppend_assoc]
      rfl
    simp [callTool, callToolCore, hnone, hstr]
  · simp [callTool, callToolCore, hsome, herr]
  · intro hs hkeys hmem
    exact lookupHandler_eq_none_of_not_mem hs toolName (hkeys ▸ hmem)

/-- Witness for C1: calling a tool absent from an empty registry yields the
unknown-tool error envelope. -/
theorem claim_C1_witness :
    callTool [] "bogus_tool" none ⟨[]⟩ =
      { content := [ContentBlock.text ("Error: Unknown tool: " ++ "bogus_tool")],
        isError := true } :=
  ((claim_C1_unknown_tool [] "bogus_tool" none ⟨[]⟩).1 rfl).1

/-! ## Claims about update_workflow validation -/

/-- Claim C5: for every argument mapping in which `name` is absent,
`update_workflow` returns an error envelope whose message names the missing
field and issues zero upstream HTTP requests. -/
theorem claim_C5_missing_name (args : JValue) (st : ApiState)
    (h : getField args "name" = none) :
    updateWorkflowExecute args st =
      ({ content := [ContentBlock.text "Missing required parameter: name"],
         isError := true }, []) := by
  simp [updateWorkflowExecute, updateWorkflowCore, h, jsTruthyOpt, handleExecution,
    formatError]

/-- Witness for C5 at the empty argument mapping. -/
theorem claim_C5_witness :
    updateWorkflowExecute (JValue.obj []) ⟨[]⟩ =
      ({ content := [ContentBlock.text "Missing required parameter: name"],
         isError := true }, []) :=
  claim_C5_missing_name (JValue.obj []) ⟨[]⟩ rfl

/-- Claim C10: supplying `name` as the empty string is treated the same as an
absent `name` (the required-argument check is a falsiness check): the same
error envelope and zero upstream requests. -/
theorem claim_C10_empty_name (args : JValue) (st : ApiState)
    (h : getField args "name" = some (JValue.str "")) :
    updateWorkflowExecute args st =
      ({ content := [ContentBlock.text "Missing required parameter: name"],
         isError := true }, []) := by
  simp [updateWorkflowExecute, updateWorkflowCore, h, jsTruthyOpt, jsTruthy,
    handleExecution, formatError]

/-- Witness for C10 at the argument mapping with an explicit empty name. -/
theorem claim_C10_witness :
    updateWorkflowExecute (JValue.obj [("name", JValue.str "")]) ⟨[]⟩ =
      ({ content := [ContentBlock.text "Missing required parameter: name"],
         isError := true }, []) :=
  claim_C10_empty_name (JValue.obj [("name", JValue.str "")]) ⟨[]⟩ rfl

/-! ## Claims about the API client decode step -/

/-- Counterexample to claim C9: a response body whose `data` field is the
number `1` (truthy but not a list) is returned as-is by both list-returning
client decodes — a non-list value, contradicting "returns an empty sequence
rather than failing or returning a non-list value". -/
theorem claim_C9_counterexample :
    decodeWorkflowsResponse (JValue.obj [("data", JValue.num 1)]) = JValue.num 1 ∧
    decodeExecutionsResponse (JValue.obj [("data", JValue.num 1)]) = JValue.num 1 ∧
    isArrayOpt (some (JValue.num 1)) = false :=
  ⟨rfl, rfl, rfl⟩

/-- Claim C9 as amended: the list-returning client methods (get-all
workflows, list executions) decode with `response.data.data || []`; when the
`data` field is absent or falsy they return the empty sequence, and a truthy
`data` value is returned as-is with no list check. -/
theorem claim_C9_decode_fallback (body : JValue) :
    (getField body "data" = none →
       decodeWorkflowsResponse body = JValue.arr [] ∧
       decodeExecutionsResponse body = JValue.arr []) ∧
    (∀ v, getField body "data" = some v → jsTruthy v = false →
       decodeWorkflowsResponse body = JValue.arr [] ∧
       decodeExecutionsResponse body = JValue.arr []) ∧
    (∀ v, getField body "data" = some v → jsTruthy v = true →
       decodeWorkflowsResponse body = v ∧ decodeExecutionsResponse body = v) := by
  refine ⟨fun h => ?_, fun v h hf => ?_, fun v h ht => ?_⟩ <;>
    simp [decodeWorkflowsResponse, decodeExecutionsResponse, decodeListResponse,
      jsOrOpt, h]
  · simp [hf]
  · simp [ht]

/-- Witness for C9's amended statement at a body with an empty object and at
a falsy `data` field. -/
theorem claim_C9_witness :
    decodeWorkflowsResponse (JValue.obj []) = JValue.arr [] ∧
    decodeWorkflowsResponse (JValue.obj [("data", JValue.null)]) = JValue.arr [] ∧
    decodeWorkflowsResponse (JValue.obj [("data", JValue.arr [JValue.num 7])]) =
      JValue.arr [JValue.num 7] :=
  ⟨((claim_C9_decode_fallback (JValue.obj [])).1 rfl).1,
   ((claim_C9_decode_fallback (JValue.obj [("data", JValue.null)])).2.1 JValue.null rfl rfl).1,
   ((claim_C9_decode_fallback (JValue.obj [("data", JValue.arr [JValue.num 7])])).2.2
      (JValue.arr [JValue.num 7]) rfl rfl).1⟩

/-! ## Claims about update_workflow structural validation -/

/-- Counterexample to claim C8: `connections` supplied as an array is present
and not a mapping, yet the call does not fail with the connections
validation error before an upstream request — the JS check is
`connections && typeof connections !== 'object'` and an array has typeof
"object", so validation passes and the handler issues `GET /workflows`
(here failing later with the name-lookup error instead). -/
theorem claim_C8_counterexample :
    (updateWorkflowExecute
        (JValue.obj [("name", JValue.str "Test"), ("connections", JValue.arr [])])
        ⟨[]⟩).2 = [Request.getWorkflowsReq] ∧
    summaryOf (updateWorkflowExecute
        (JValue.obj [("name", JValue.str "Test"), ("connections", JValue.arr [])])
        ⟨[]⟩).1 = some "Workflow with name \"Test\" not found" ∧
    (updateWorkflowExecute
        (JValue.obj [("name", JValue.str "Test"), ("connections", JValue.arr [])])
        ⟨[]⟩).1.isError = true :=
  ⟨rfl, rfl, rfl⟩

/-- Claim C8 as amended: the structural checks fire on *truthy* mistyped
values: a truthy non-array `nodes` fails with `Parameter "nodes" must be an
array`, and (when the nodes check passes) a truthy `connections` whose JS
typeof is not "object" fails with `Parameter "connections" must be an
object`, each before any upstream request.  Falsy values skip the checks,
and an array passes the connections check since its typeof is "object". -/
theorem claim_C8_truthy_type_validation (args : JValue) (st : ApiState)
    (hname : jsTruthyOpt (getField args "name") = true) :
    (jsTruthyOpt (getField args "nodes") = true →
     isArrayOpt (getField args "nodes") = false →
       updateWorkflowExecute args st =
         ({ content := [ContentBlock.text "Parameter \"nodes\" must be an array"],
            isError := true }, [])) ∧
    ((jsTruthyOpt (getField args "nodes") && !isArrayOpt (getField args "nodes")) = false →
     jsTruthyOpt (getField args "connections") = true →
     typeofIsObject (getField args "connections") = false →
       updateWorkflowExecute args st =
         ({ content := [ContentBlock.text "Parameter \"connections\" must be an object"],
            isError := true }, [])) := by
  constructor
  · intro h1 h2
    simp [updateWorkflowExecute, updateWorkflowCore, hname, h1, h2, handleExecution,
      formatError]
  · intro h0 h1 h2
    simp [updateWorkflowExecute, updateWorkflowCore, hname, h0, h1, h2, handleExecution,
      formatError]

/-- Witness for C8's amended statement: a string `nodes` and a string
`connections` each fail with the named validation error and no requests. -/
theorem claim_C8_witness :
    updateWorkflowExecute
        (JValue.obj [("name", JValue.str "T"), ("nodes", JValue.str "x")]) ⟨[]⟩ =
      ({ content := [ContentBlock.text "Parameter \"nodes\" must be an array"],
         isError := true }, []) ∧
    updateWorkflowExecute
        (JValue.obj [("name", JValue.str "T"), ("connections", JValue.str "x")]) ⟨[]⟩ =
      ({ content := [ContentBlock.text "Parameter \"connections\" must be an object"],
         isError := true }, []) :=
  ⟨(claim_C8_truthy_type_validation
      (JValue.obj [("name", JValue.str "T"), ("nodes", JValue.str "x")]) ⟨[]⟩ rfl).1 rfl rfl,
   (claim_C8_truthy_type_validation
      (JValue.obj [("name", JValue.str "T"), ("connections", JValue.str "x")]) ⟨[]⟩ rfl).2
      rfl rfl rfl⟩

/-! ## Claim C7: name-based lookup in update_workflow -/

/-- Claim C7: for every update_workflow call with a non-empty (string) name
that passes the structural validation, the handler lists all workflows
(`GET /workflows`) and selects the *first* whose name strictly equals the
supplied name; when none matches the call returns an error envelope saying
the workflow with that name was not found and issues no update request
(the trace is exactly the one listing request); when one matches, the next
request is the client's fetch of that workflow's id. -/
theorem claim_C7_first_match_or_not_found (args : JValue) (st : ApiState) (s : String)
    (hname : getField args "name" = some (JValue.str s)) (hs : s ≠ "")
    (hnodes : (jsTruthyOpt (getField args "nodes") && !isArrayOpt (getField args "nodes")) = false)
    (hconn : (jsTruthyOpt (getField args "connections") &&
              !typeofIsObject (getField args "connections")) = false) :
    (st.workflows.find? (fun w => jsStrictEqOpt (getField w "name") (some (JValue.str s))) = none →
       updateWorkflowExecute args st =
         ({ content := [ContentBlock.text ("Workflow with name \"" ++ s ++ "\" not found")],
            isError := true }, [Request.getWorkflowsReq])) ∧
    (∀ w, st.workflows.find?
        (fun w => jsStrictEqOpt (getField w "name") (some (JValue.str s))) = some w →
       ∃ rest, (updateWorkflowExecute args st).2 =
         Request.getWorkflowsReq :: Request.getWorkflowReq (optToString (getField w "id")) :: rest) := by
  have hnameT : jsTruthyOpt (some (JValue.str s)) = true := by
    simp [jsTruthyOpt, jsTruthy, hs]
  constructor
  · intro hfind
    simp [updateWorkflowExecute, updateWorkflowCore, hname, hnameT,
      hnodes, hconn, apiGetWorkflows_eq, hfind, handleExecution, formatError,
      optToString, jsToString]
  · intro w hfind
    cases hfetch : findWorkflowById st (optToString (getField w "id")) with
    | none =>
        refine ⟨[], ?_⟩
        simp [updateWorkflowExecute, updateWorkflowCore, hname, hnameT,
          hnodes, hconn, apiGetWorkflows_eq, hfind, apiUpdateWorkflow, hfetch]
    | some cur =>
        refine ⟨[Request.putWorkflowReq (optToString (getField w "id"))
          (mergeWorkflowUpdate cur (JValue.obj
            (setFieldIf (setFieldIf (setFieldIf (setFieldIf (setFieldIf
              (spreadO (some w)) "name" (getField args "newName"))
              "nodes" (getField args "nodes"))
              "connections" (getField args "connections"))
              "active" (getField args "active"))
              "tags" (getField args "tags"))))], ?_⟩
        simp [updateWorkflowExecute, updateWorkflowCore, hname, hnameT,
          hnodes, hconn, apiGetWorkflows_eq, hfind, apiUpdateWorkflow, hfetch]

/-- Witness for C7: looking up a name absent from an empty upstream yields
the not-found envelope after exactly the one listing request. -/
theorem claim_C7_witness :
    updateWorkflowExecute (JValue.obj [("name", JValue.str "Nope")]) ⟨[]⟩ =
      ({ content := [ContentBlock.text ("Workflow with name \"" ++ "Nope" ++ "\" not found")],
         isError := true }, [Request.getWorkflowsReq]) :=
  (claim_C7_first_match_or_not_found (JValue.obj [("name", JValue.str "Nope")]) ⟨[]⟩
    "Nope" rfl (by decide) rfl rfl).1 rfl

/-! ## Claim C6: the no-changes summary -/

/-- Counterexample to claim C6: for a stored workflow named "Test", calling
update with `{name:"Test"}` succeeds, but the envelope's summary text is
"Workflow updated successfully. No changes were made" — not exactly
"No changes were made" (only the changes-summary portion equals that). -/
theorem claim_C6_counterexample :
    summaryOf (updateWorkflowExecute (JValue.obj [("name", JValue.str "Test")])
        ⟨[JValue.obj [("id", JValue.str "1"), ("name", JValue.str "Test"),
           ("active", JValue.bool false), ("nodes", JValue.arr []),
           ("connections", JValue.obj []), ("settings", JValue.obj []),
           ("tags", JValue.arr [])]]⟩).1 =
      some "Workflow updated successfully. No changes were made" ∧
    (updateWorkflowExecute (JValue.obj [("name", JValue.str "Test")])
        ⟨[JValue.obj [("id", JValue.str "1"), ("name", JValue.str "Test"),
           ("active", JValue.bool false), ("nodes", JValue.arr []),
           ("connections", JValue.obj []), ("settings", JValue.obj []),
           ("tags", JValue.arr [])]]⟩).1.isError = false ∧
    "Workflow updated successfully. No changes were made" ≠ "No changes were made" :=
  ⟨rfl, rfl, by decide⟩

/-- Claim C6 as amended: given a stored workflow found under the supplied
name, calling update_workflow with only `name` yields a success envelope
whose summary text is exactly "Workflow updated successfully. No changes
were made" (the changes-summary portion is "No changes were made"). -/
theorem claim_C6_no_changes_summary (args : JValue) (st : ApiState) (s : String)
    (w cur : JValue)
    (hname : getField args "name" = some (JValue.str s)) (hs : s ≠ "")
    (hnew : getField args "newName" = none) (hnodes : getField args "nodes" = none)
    (hconn : getField args "connections" = none) (hact : getField args "active" = none)
    (htags : getField args "tags" = none)
    (hfind : st.workflows.find?
        (fun w => jsStrictEqOpt (getField w "name") (some (JValue.str s))) = some w)
    (hfetch : findWorkflowById st (optToString (getField w "id")) = some cur) :
    (updateWorkflowExecute args st).1.isError = false ∧
    summaryOf (updateWorkflowExecute args st).1 =
      some "Workflow updated successfully. No changes were made" := by
  have hnameT : jsTruthy (JValue.str s) = true := by
    simp [jsTruthy, hs]
  constructor <;>
    simp [updateWorkflowExecute, updateWorkflowCore, hname, hnameT, hnew, hnodes,
      hconn, hact, htags, jsTruthyOpt, apiGetWorkflows_eq, hfind, setFieldIf,
      apiUpdateWorkflow, hfetch, updateChangesList, handleExecution, formatSuccess,
      summaryOf]

/-- Witness for C6's amended statement at the concrete "Test" workflow. -/
theorem claim_C6_witness :
    (updateWorkflowExecute (JValue.obj [("name", JValue.str "Test")])
        ⟨[JValue.obj [("id", JValue.str "7"), ("name", JValue.str "Test"),
           ("active", JValue.bool false)]]⟩).1.isError = false ∧
    summaryOf (updateWorkflowExecute (JValue.obj [("name", JValue.str "Test")])
        ⟨[JValue.obj [("id", JValue.str "7"), ("name", JValue.str "Test"),
           ("active", JValue.bool false)]]⟩).1 =
      some "Workflow updated successfully. No changes were made" :=
  claim_C6_no_changes_summary (JValue.obj [("name", JValue.str "Test")])
    ⟨[JValue.obj [("id", JValue.str "7"), ("name", JValue.str "Test"),
       ("active", JValue.bool false)]]⟩ "Test"
    (JValue.obj [("id", JValue.str "7"), ("name", JValue.str "Test"),
       ("active", JValue.bool false)])
    (JValue.obj [("id", JValue.str "7"), ("name", JValue.str "Test"),
       ("active", JValue.bool false)])
    rfl (by decide) rfl rfl rfl rfl rfl rfl rfl

/-! ## Claim C2: the changes summary of a successful update -/

theorem getField_merge_active_of_some (cur wfd b : JValue)
    (h : getField wfd "active" = some b) :
    getField (mergeWorkflowUpdate cur wfd) "active" = some b := by
  have hpick : jsPick wfd cur "active" = some b := by simp [jsPick, optOr, h]
  unfold mergeWorkflowUpdate
  simp only [getField]
  rw [lookupF_setFieldOpt_ne _ _ _ _ (by decide), hpick]
  simp only [setFieldOpt]
  exact lookupF_setField_self _ _ _

theorem intercalate_single (x : String) : String.intercalate ", " [x] = x := rfl

theorem summaryConcat (x y : String) :
    "Workflow updated successfully. " ++ ("Changes: " ++ ("active: " ++ x ++ " → " ++ y)) =
    "Workflow updated successfully. Changes: active: " ++ x ++ " → " ++ y := by
  simp only [← strAppend_assoc]
  rfl

/-- Counterexample to claim C2: for a stored workflow whose `tags` value is
the empty array, a successful update supplying `tags` as the (equal) empty
array produces a summary listing "tags updated" — the summary does not list
exactly the fields whose new value differs from the old, since the old and
new `tags` values coincide. -/
theorem claim_C2_counterexample :
    summaryOf (updateWorkflowExecute
        (JValue.obj [("name", JValue.str "Test"), ("tags", JValue.arr [])])
        ⟨[JValue.obj [("id", JValue.str "1"), ("name", JValue.str "Test"),
           ("active", JValue.bool false), ("tags", JValue.arr [])]]⟩).1 =
      some "Workflow updated successfully. Changes: tags updated" ∧
    (updateWorkflowExecute
        (JValue.obj [("name", JValue.str "Test"), ("tags", JValue.arr [])])
        ⟨[JValue.obj [("id", JValue.str "1"), ("name", JValue.str "Test"),
           ("active", JValue.bool false), ("tags", JValue.arr [])]]⟩).1.isError = false ∧
    getField (JValue.obj [("id", JValue.str "1"), ("name", JValue.str "Test"),
        ("active", JValue.bool false), ("tags", JValue.arr [])]) "tags" =
      some (JValue.arr []) ∧
    getField (JValue.obj [("name", JValue.str "Test"), ("tags", JValue.arr [])]) "tags" =
      some (JValue.arr []) :=
  ⟨rfl, rfl, rfl, rfl⟩

theorem lookupF_setFieldIf_ne (fs : List (String × JValue)) (k k' : String)
    (o : Option JValue) (h : k' ≠ k) :
    lookupF (setFieldIf fs k o) k' = lookupF fs k' := by
  cases o with
  | some v => simpa [setFieldIf] using lookupF_setField_ne fs k k' v h
  | none => rfl

/-- Claim C2 as amended: for every successful update, the envelope summary
is "Workflow updated successfully. " followed by the rendering of the
changes list, and that list is exactly: the `name` old → new entry when
`newName` is supplied and differs from the stored name (nothing when equal),
the `active` old → new entry when `active` is supplied and differs from the
stored flag (nothing when equal), and "nodes updated" / "connections
updated" / "tags updated" whenever the respective argument is supplied,
regardless of whether its value differs; "No changes were made" is rendered
when the list is empty.  Whenever a boolean `active` is supplied, the
payload active field is that new value. -/
theorem claim_C2_changes_summary (args : JValue) (st : ApiState) (s : String)
    (w cur : JValue)
    (hname : getField args "name" = some (JValue.str s)) (hs : s ≠ "")
    (hnodesOk : (jsTruthyOpt (getField args "nodes") &&
                 !isArrayOpt (getField args "nodes")) = false)
    (hconnOk : (jsTruthyOpt (getField args "connections") &&
                !typeofIsObject (getField args "connections")) = false)
    (hfind : st.workflows.find?
        (fun w => jsStrictEqOpt (getField w "name") (some (JValue.str s))) = some w)
    (hfetch : findWorkflowById st (optToString (getField w "id")) = some cur) :
    (updateWorkflowExecute args st).1.isError = false ∧
    summaryOf (updateWorkflowExecute args st).1 =
      some ("Workflow updated successfully. " ++
        (if (updateChangesList w (getField args "newName") (getField args "nodes")
              (getField args "connections") (getField args "active")
              (getField args "tags")).isEmpty
         then "No changes were made"
         else "Changes: " ++ String.intercalate ", "
           (updateChangesList w (getField args "newName") (getField args "nodes")
              (getField args "connections") (getField args "active")
              (getField args "tags")))) ∧
    updateChangesList w (getField args "newName") (getField args "nodes")
        (getField args "connections") (getField args "active") (getField args "tags") =
      (match getField args "newName" with
       | some nv =>
           if jsStrictEqOpt (some nv) (getField w "name") then []
           else ["name: \"" ++ optToString (getField w "name") ++ "\" → \"" ++
                 jsToString nv ++ "\""]
       | none => []) ++
      (match getField args "active" with
       | some av =>
           if jsStrictEqOpt (some av) (getField w "active") then []
           else ["active: " ++ optToString (getField w "active") ++ " → " ++
                 jsToString av]
       | none => []) ++
      (if (getField args "nodes").isSome then ["nodes updated"] else []) ++
      (if (getField args "connections").isSome then ["connections updated"] else []) ++
      (if (getField args "tags").isSome then ["tags updated"] else []) ∧
    (∀ b : Bool, getField args "active" = some (JValue.bool b) →
       ∃ p, payloadOf (updateWorkflowExecute args st).1 = some p ∧
            getField p "active" = some (JValue.bool b)) := by
  have hnameT : jsTruthyOpt (some (JValue.str s)) = true := by
    simp [jsTruthyOpt, jsTruthy, hs]
  refine ⟨?_, ?_, ?_, ?_⟩
  · simp [updateWorkflowExecute, updateWorkflowCore, hname, hnameT, hnodesOk, hconnOk,
      apiGetWorkflows_eq, hfind, apiUpdateWorkflow, hfetch, handleExecution,
      formatSuccess]
  · simp [updateWorkflowExecute, updateWorkflowCore, hname, hnameT, hnodesOk, hconnOk,
      apiGetWorkflows_eq, hfind, apiUpdateWorkflow, hfetch, handleExecution,
      formatSuccess, summaryOf]
  · cases hnd : getField args "nodes" <;> cases hcn : getField args "connections" <;>
      cases htg : getField args "tags" <;> simp [updateChangesList]
  · intro b hact
    have hwd : getField (JValue.obj
        (setFieldIf (setFieldIf (setFieldIf (setFieldIf (setFieldIf
          (spreadO (some w)) "name" (getField args "newName"))
          "nodes" (getField args "nodes"))
          "connections" (getField args "connections"))
          "active" (getField args "active"))
          "tags" (getField args "tags"))) "active" = some (JValue.bool b) := by
      rw [hact]
      simp only [getField]
      rw [lookupF_setFieldIf_ne _ _ _ _ (by decide)]
      simp only [setFieldIf]
      exact lookupF_setField_self _ _ _
    simp only [updateWorkflowExecute, updateWorkflowCore, hname, hnameT, hnodesOk,
      hconnOk, apiGetWorkflows_eq, hfind, apiUpdateWorkflow, hfetch, handleExecution,
      formatSuccess, payloadOf]
    simp
    rw [getField_payload_active]
    exact getField_merge_active_of_some cur _ (JValue.bool b) hwd

/-- Witness for C2: the spec concrete scenario — a stored workflow named
"Test" with active=false, updated with `{name:"Test", active:true}` — yields
a success envelope whose summary is "Workflow updated successfully.
Changes: active: false → true". -/
theorem claim_C2_witness :
    (updateWorkflowExecute
        (JValue.obj [("name", JValue.str "Test"), ("active", JValue.bool true)])
        ⟨[JValue.obj [("id", JValue.str "1"), ("name", JValue.str "Test"),
           ("active", JValue.bool false)]]⟩).1.isError = false ∧
    summaryOf (updateWorkflowExecute
        (JValue.obj [("name", JValue.str "Test"), ("active", JValue.bool true)])
        ⟨[JValue.obj [("id", JValue.str "1"), ("name", JValue.str "Test"),
           ("active", JValue.bool false)]]⟩).1 =
      some "Workflow updated successfully. Changes: active: false → true" := by
  have h := claim_C2_changes_summary
    (JValue.obj [("name", JValue.str "Test"), ("active", JValue.bool true)])
    ⟨[JValue.obj [("id", JValue.str "1"), ("name", JValue.str "Test"),
       ("active", JValue.bool false)]]⟩ "Test"
    (JValue.obj [("id", JValue.str "1"), ("name", JValue.str "Test"),
       ("active", JValue.bool false)])
    (JValue.obj [("id", JValue.str "1"), ("name", JValue.str "Test"),
       ("active", JValue.bool false)])
    rfl (by decide) rfl rfl rfl rfl
  refine ⟨h.1, ?_⟩
  rw [h.2.1]
  rfl

/-! ## Claim C3: the client's update is a read-modify-write merge -/

theorem optOr_eq_none_right (a b : Option JValue) (h : optOr a b = none) : b = none := by
  cases a with
  | none => simpa [optOr] using h
  | some v => simp [optOr] at h

theorem mergeField_name (cur workflow : JValue) :
    getField (mergeWorkflowUpdate cur workflow) "name" =
      optOr (getField workflow "name") (getField cur "name") := by
  unfold mergeWorkflowUpdate
  simp only [getField]
  rw [lookupF_setFieldOpt_ne _ _ _ _ (by decide)]
  rw [lookupF_setFieldOpt_ne _ _ _ _ (by decide)]
  rw [lookupF_setField_ne _ _ _ _ (by decide)]
  rw [lookupF_setFieldOpt_ne _ _ _ _ (by decide)]
  rw [lookupF_setFieldOpt_ne _ _ _ _ (by decide)]
  rw [lookupF_setFieldOpt_self _ _ _ (fun h0 => by
    rw [lookupF_spread_some]
    exact optOr_eq_none_right _ _ h0)]
  rfl

theorem mergeField_nodes (cur workflow : JValue) :
    getField (mergeWorkflowUpdate cur workflow) "nodes" =
      optOr (getField workflow "nodes") (getField cur "nodes") := by
  unfold mergeWorkflowUpdate
  simp only [getField]
  rw [lookupF_setFieldOpt_ne _ _ _ _ (by decide)]
  rw [lookupF_setFieldOpt_ne _ _ _ _ (by decide)]
  rw [lookupF_setField_ne _ _ _ _ (by decide)]
  rw [lookupF_setFieldOpt_ne _ _ _ _ (by decide)]
  rw [lookupF_setFieldOpt_self _ _ _ (fun h0 => by
    rw [lookupF_setFieldOpt_ne _ _ _ _ (by decide), lookupF_spread_some]
    exact optOr_eq_none_right _ _ h0)]
  rfl

theorem mergeField_connections (cur workflow : JValue) :
    getField (mergeWorkflowUpdate cur workflow) "connections" =
      optOr (getField workflow "connections") (getField cur "connections") := by
  unfold mergeWorkflowUpdate
  simp only [getField]
  rw [lookupF_setFieldOpt_ne _ _ _ _ (by decide)]
  rw [lookupF_setFieldOpt_ne _ _ _ _ (by decide)]
  rw [lookupF_setField_ne _ _ _ _ (by decide)]
  rw [lookupF_setFieldOpt_self _ _ _ (fun h0 => by
    rw [lookupF_setFieldOpt_ne _ _ _ _ (by decide),
      lookupF_setFieldOpt_ne _ _ _ _ (by decide), lookupF_spread_some]
    exact optOr_eq_none_right _ _ h0)]
  rfl

theorem mergeField_active (cur workflow : JValue) :
    getField (mergeWorkflowUpdate cur workflow) "active" =
      optOr (getField workflow "active") (getField cur "active") := by
  unfold mergeWorkflowUpdate
  simp only [getField]
  rw [lookupF_setFieldOpt_ne _ _ _ _ (by decide)]
  rw [lookupF_setFieldOpt_self _ _ _ (fun h0 => by
    rw [lookupF_setField_ne _ _ _ _ (by decide),
      lookupF_setFieldOpt_ne _ _ _ _ (by decide),
      lookupF_setFieldOpt_ne _ _ _ _ (by decide),
      lookupF_setFieldOpt_ne _ _ _ _ (by decide), lookupF_spread_some]
    exact optOr_eq_none_right _ _ h0)]
  rfl

theorem mergeField_tags (cur workflow : JValue) :
    getField (mergeWorkflowUpdate cur workflow) "tags" =
      optOr (getField workflow "tags") (getField cur "tags") := by
  unfold mergeWorkflowUpdate
  simp only [getField]
  rw [lookupF_setFieldOpt_self _ _ _ (fun h0 => by
    rw [lookupF_setFieldOpt_ne _ _ _ _ (by decide),
      lookupF_setField_ne _ _ _ _ (by decide),
      lookupF_setFieldOpt_ne _ _ _ _ (by decide),
      lookupF_setFieldOpt_ne _ _ _ _ (by decide),
      lookupF_setFieldOpt_ne _ _ _ _ (by decide), lookupF_spread_some]
    exact optOr_eq_none_right _ _ h0)]
  rfl

/-- Claim C3: for every workflow id and update payload, the client's update
first fetches the current workflow, then builds the object it sends by
overwriting only the caller-supplied fields over the fetched copy (settings
shallow-merged caller-over-fetched, all other fetched fields preserved), and
sends the full merged object in a single PUT — a read-modify-write. -/
theorem claim_C3_update_merge (id : String) (workflow : JValue) (st : ApiState)
    (cur : JValue) (hfind : findWorkflowById st id = some cur)
    (hnd : ((spreadO (getField workflow "settings")).map Prod.fst).Nodup) :
    apiUpdateWorkflow id workflow st =
      (Except.ok (mergeWorkflowUpdate cur workflow),
       [Request.getWorkflowReq id,
        Request.putWorkflowReq id (mergeWorkflowUpdate cur workflow)]) ∧
    (∀ f, f ∈ ["name", "nodes", "connections", "active", "tags"] →
       getField (mergeWorkflowUpdate cur workflow) f =
         optOr (getField workflow f) (getField cur f)) ∧
    (∃ sf, getField (mergeWorkflowUpdate cur workflow) "settings" =
         some (JValue.obj sf) ∧
       ∀ k, lookupF sf k =
         optOr (lookupF (spreadO (getField workflow "settings")) k)
               (lookupF (spreadO (getField cur "settings")) k)) ∧
    (∀ f, f ∉ ["name", "nodes", "connections", "settings", "active", "tags"] →
       getField (mergeWorkflowUpdate cur workflow) f = getField cur f) := by
  refine ⟨?_, ?_, ?_, ?_⟩
  · simp [apiUpdateWorkflow, hfind]
  · intro f hf
    simp only [List.mem_cons, List.not_mem_nil, or_false] at hf
    rcases hf with rfl | rfl | rfl | rfl | rfl
    · exact mergeField_name cur workflow
    · exact mergeField_nodes cur workflow
    · exact mergeField_connections cur workflow
    · exact mergeField_active cur workflow
    · exact mergeField_tags cur workflow
  · refine ⟨overwriteFields (spreadO (getField cur "settings"))
      (spreadO (getField workflow "settings")), ?_, ?_⟩
    · unfold mergeWorkflowUpdate
      simp only [getField]
      rw [lookupF_setFieldOpt_ne _ _ _ _ (by decide)]
      rw [lookupF_setFieldOpt_ne _ _ _ _ (by decide)]
      exact lookupF_setField_self _ _ _
    · intro k
      exact lookupF_overwriteFields _ _ k hnd
  · intro f hf
    simp only [List.mem_cons, List.not_mem_nil, or_false, not_or] at hf
    obtain ⟨h1, h2, h3, h4, h5, h6⟩ := hf
    unfold mergeWorkflowUpdate
    simp only [getField]
    rw [lookupF_setFieldOpt_ne _ _ _ _ h6]
    rw [lookupF_setFieldOpt_ne _ _ _ _ h5]
    rw [lookupF_setField_ne _ _ _ _ h4]
    rw [lookupF_setFieldOpt_ne _ _ _ _ h3]
    rw [lookupF_setFieldOpt_ne _ _ _ _ h2]
    rw [lookupF_setFieldOpt_ne _ _ _ _ h1]
    exact lookupF_spread_some cur f

/-- Witness for C3 at a concrete stored workflow and update payload. -/
theorem claim_C3_witness :
    apiUpdateWorkflow "1" (JValue.obj [("name", JValue.str "New")])
      ⟨[JValue.obj [("id", JValue.str "1"), ("name", JValue.str "Old")]]⟩ =
      (Except.ok (mergeWorkflowUpdate
          (JValue.obj [("id", JValue.str "1"), ("name", JValue.str "Old")])
          (JValue.obj [("name", JValue.str "New")])),
       [Request.getWorkflowReq "1",
        Request.putWorkflowReq "1" (mergeWorkflowUpdate
          (JValue.obj [("id", JValue.str "1"), ("name", JValue.str "Old")])
          (JValue.obj [("name", JValue.str "New")]))]) :=
  (claim_C3_update_merge "1" (JValue.obj [("name", JValue.str "New")])
    ⟨[JValue.obj [("id", JValue.str "1"), ("name", JValue.str "Old")]]⟩
    (JValue.obj [("id", JValue.str "1"), ("name", JValue.str "Old")])
    rfl (by decide)).1

/-! ## Claim C4: create-workflow defaults -/

/-- Claim C4: for every create-workflow payload, the object sent upstream
(in the single POST) has settings equal to the caller-supplied settings
merged over the baseline (caller keys win), nodes/connections/tags default
to empty array/object/array when absent, and omitting settings yields
exactly the baseline, which includes `saveExecutionProgress: true` and
`timezone: "UTC"`. -/
theorem claim_C4_create_defaults (workflow : JValue) :
    apiCreateWorkflow workflow =
      (Except.ok (createWorkflowBody workflow),
       [Request.postWorkflowsReq (createWorkflowBody workflow)]) ∧
    (∃ sf, getField (createWorkflowBody workflow) "settings" = some (JValue.obj sf) ∧
       (((spreadO (getField workflow "settings")).map Prod.fst).Nodup →
        ∀ k, lookupF sf k =
          optOr (lookupF (spreadO (getField workflow "settings")) k)
                (lookupF baselineSettingsFields k))) ∧
    (getField workflow "nodes" = none →
       getField (createWorkflowBody workflow) "nodes" = some (JValue.arr [])) ∧
    (getField workflow "connections" = none →
       getField (createWorkflowBody workflow) "connections" = some (JValue.obj [])) ∧
    (getField workflow "tags" = none →
       getField (createWorkflowBody workflow) "tags" = some (JValue.arr [])) ∧
    (getField workflow "settings" = none →
       getField (createWorkflowBody workflow) "settings" =
         some (JValue.obj baselineSettingsFields) ∧
       lookupF baselineSettingsFields "saveExecutionProgress" = some (JValue.bool true) ∧
       lookupF baselineSettingsFields "timezone" = some (JValue.str "UTC")) := by
  have hsettings : getField (createWorkflowBody workflow) "settings" =
      some (JValue.obj (overwriteFields baselineSettingsFields
        (spreadO (getField workflow "settings")))) := by
    unfold createWorkflowBody
    simp only [getField]
    rw [lookupF_setField_ne _ _ _ _ (by decide)]
    rw [lookupF_setField_ne _ _ _ _ (by decide)]
    exact lookupF_setField_self _ _ _
  refine ⟨rfl, ?_, ?_, ?_, ?_, ?_⟩
  · refine ⟨overwriteFields baselineSettingsFields
      (spreadO (getField workflow "settings")), hsettings, ?_⟩
    intro hnd k
    exact lookupF_overwriteFields _ _ k hnd
  · intro h
    unfold createWorkflowBody
    rw [h]
    simp only [getField]
    rw [lookupF_setField_ne _ _ _ _ (by decide)]
    rw [lookupF_setField_ne _ _ _ _ (by decide)]
    rw [lookupF_setField_ne _ _ _ _ (by decide)]
    rw [lookupF_setField_ne _ _ _ _ (by decide)]
    rw [lookupF_setField_self _ _ _]
    rfl
  · intro h
    unfold createWorkflowBody
    rw [h]
    simp only [getField]
    rw [lookupF_setField_ne _ _ _ _ (by decide)]
    rw [lookupF_setField_ne _ _ _ _ (by decide)]
    rw [lookupF_setField_ne _ _ _ _ (by decide)]
    rw [lookupF_setField_self _ _ _]
    rfl
  · intro h
    unfold createWorkflowBody
    rw [h]
    simp only [getField]
    rw [lookupF_setField_self _ _ _]
    rfl
  · intro h
    refine ⟨?_, rfl, rfl⟩
    rw [hsettings, h]
    rfl

/-- Witness for C4 at a payload that omits settings, nodes, connections and
tags. -/
theorem claim_C4_witness :
    getField (createWorkflowBody (JValue.obj [("name", JValue.str "W")])) "nodes" =
      some (JValue.arr []) ∧
    getField (createWorkflowBody (JValue.obj [("name", JValue.str "W")])) "settings" =
      some (JValue.obj baselineSettingsFields) ∧
    lookupF baselineSettingsFields "saveExecutionProgress" = some (JValue.bool true) ∧
    lookupF baselineSettingsFields "timezone" = some (JValue.str "UTC") :=
  ⟨(claim_C4_create_defaults (JValue.obj [("name", JValue.str "W")])).2.2.1 rfl,
   (claim_C4_create_defaults (JValue.obj [("name", JValue.str "W")])).2.2.2.2.2 rfl⟩
